import Mathlib

/-!
Verification of the faystar-backend external-API client wrappers.

Shallow embedding of the three provider-client services and their routes:

* `FalClientService` (services/falClient.service.js): retrying transport
  client, error classifier `_handleError`, input validation and the
  `generateVideo` operation.
* `FalVideoService` (falVideo.service.js): non-retrying variant whose error
  handling rethrows classified errors.
* `ElevenLabsService` (services/elevenLabs.service.js): credential guard
  (`disabled` flag), `generateSpeech` with its inline status-code handler,
  `_validateInput`, base64 audio encoding, and `checkHealth`.
* The route-level helpers `_getStatusCodeForError` of routes/video.js and
  routes/audio.js, and the stability/similarity normalization of the
  `POST /tts` route handler.

The network is modelled by a transport oracle: a value (or, for the retrying
client, a function of the attempt number) describing how the single axios
call of each attempt resolves.  Every operation returns its outcome paired
with the number of transport invocations it performed, so call-count
properties are directly expressible.  Nondeterministic envelope fields
(request ids, timestamps, the random seed of the payload) are outside the
model; the structured fields the specification speaks about (success flag,
error type, messages, audio payload and size) are kept.
-/

/-- A JavaScript value as far as the services inspect their arguments:
`undefined`, `null`, strings, numbers (modelled as rationals) and booleans. -/
inductive JSVal where
  | undef
  | nullv
  | str (s : String)
  | num (q : ℚ)
  | bool (b : Bool)
deriving DecidableEq, Repr

/-- JavaScript truthiness test (`!v` in the sources negates this). -/
def jsFalsy : JSVal → Bool
  | .undef => true
  | .nullv => true
  | .str s => s == ""
  | .num q => q == 0
  | .bool b => !b

/-- The `typeof v === 'string'` test. -/
def isStr : JSVal → Bool
  | .str _ => true
  | _ => false

/-- ASCII whitespace, the characters String.prototype.trim removes that occur
in this development. -/
def jsWhitespace (c : Char) : Bool :=
  c = ' ' || c = '\t' || c = '\n' || c = '\r'

/-- JavaScript `s.trim()`: strip leading and trailing whitespace. -/
def jsTrim (s : String) : String :=
  ⟨((s.data.dropWhile jsWhitespace).reverse.dropWhile jsWhitespace).reverse⟩

/-- How a single axios call resolves: a successful response of body type `α`,
an HTTP error response (`error.response.status` plus the provider body field
the handlers read), a network-level error (`error.code`, `error.message`), or
some other thrown error (no `response`, no `code`). -/
inductive TransportOutcome (α : Type) where
  | success (body : α)
  | httpError (status : Nat) (errBody : Option String)
  | netError (code : String) (msg : String)
  | thrown (msg : String)
deriving DecidableEq, Repr

/-- The error value that escapes a failed request, as the classifiers see it:
either an HTTP error response, a network error with a code, or a plain
thrown error. -/
inductive ReqError where
  | httpError (status : Nat) (errBody : Option String)
  | netError (code : String) (msg : String)
  | thrown (msg : String)
deriving DecidableEq, Repr

/-- Body of a successful Fal.ai generation response: the fields of
`response.data` that `generateVideo` reads. -/
structure FalBody where
  video_url : String
  estimated_time : Option String := none
deriving DecidableEq, Repr

/-- The statuses `_makeRequestWithRetry` refuses to retry
(`status === 401 || 403 || 402 || 429` in falClient.service.js). -/
def noRetryStatus (s : Nat) : Bool :=
  s == 401 || s == 403 || s == 402 || s == 429

/-- The `for (attempt = 1; attempt <= maxRetries + 1; ...)` loop body of
`FalClientService._makeRequestWithRetry`, one constructor case per way the
axios call can resolve.  `fuel` is the number of loop iterations still
allowed; when it reaches zero the loop has completed and `lastError` is
thrown.  The second component counts transport invocations. -/
def falRetryLoop (transport : Nat → TransportOutcome FalBody) :
    Nat → Nat → Option ReqError → Except ReqError FalBody × Nat
  | _, 0, lastError => (Except.error (lastError.getD (ReqError.thrown "undefined")), 0)
  | attempt, fuel + 1, _ =>
    match transport attempt with
    | .success b => (Except.ok b, 1)
    | .httpError s eb =>
      if noRetryStatus s then
        (Except.error (ReqError.httpError s eb), 1)
      else
        let r := falRetryLoop transport (attempt + 1) fuel (some (ReqError.httpError s eb))
        (r.1, r.2 + 1)
    | .netError c m =>
      let r := falRetryLoop transport (attempt + 1) fuel (some (ReqError.netError c m))
      (r.1, r.2 + 1)
    | .thrown m =>
      let r := falRetryLoop transport (attempt + 1) fuel (some (ReqError.thrown m))
      (r.1, r.2 + 1)

/-- `this.maxRetries` as set in the FalClientService constructor. -/
def falMaxRetries : Nat := 1

/-- `FalClientService._makeRequestWithRetry`: run the attempt loop starting
at attempt 1 with `maxRetries + 1` iterations allowed. -/
def falMakeRequestWithRetry (transport : Nat → TransportOutcome FalBody) :
    Except ReqError FalBody × Nat :=
  falRetryLoop transport 1 (falMaxRetries + 1) none

/-- An error classification as produced by `_handleError`:
`{type, message, details}`. -/
structure ErrorInfo where
  type : String
  message : String
  details : String
deriving DecidableEq, Repr

/-- `FalClientService._handleError`: map the escaped request error to a
classification.  The `error.stack` detail of the final branch is modelled by
the error message. -/
def falHandleError : ReqError → ErrorInfo
  | .httpError s eb =>
    if s = 401 then
      ⟨"INVALID_API_KEY", "Invalid Fal.ai API key", eb.getD "Authentication failed"⟩
    else if s = 403 then
      ⟨"ACCESS_DENIED", "Access denied - API key may be disabled", eb.getD "Forbidden"⟩
    else if s = 402 then
      ⟨"NO_CREDITS", "No credits or billing required", eb.getD "Payment required"⟩
    else if s = 429 then
      ⟨"RATE_LIMITED", "Rate limit exceeded - too many requests", eb.getD "Too many requests"⟩
    else if s = 500 ∨ s = 502 ∨ s = 503 ∨ s = 504 then
      ⟨"SERVER_ERROR", "Fal.ai server error (" ++ toString s ++ ")", eb.getD "Server error"⟩
    else
      ⟨"API_ERROR", "Fal.ai API error (" ++ toString s ++ ")", eb.getD "Unknown API error"⟩
  | .netError c m =>
    if c = "ECONNABORTED" then
      ⟨"TIMEOUT", "Request timeout - Fal.ai API not responding", "Timeout after 60000ms"⟩
    else if c = "ENOTFOUND" ∨ c = "ECONNREFUSED" then
      ⟨"NETWORK_ERROR", "Network error - unable to connect to Fal.ai", c⟩
    else
      ⟨"NETWORK_ERROR", "Network error: " ++ m, c⟩
  | .thrown m => ⟨"UNKNOWN_ERROR", "Unexpected error: " ++ m, m⟩

/-- The default applied to `duration` by the destructuring
`{ prompt, duration = 5, aspectRatio = "16:9" }`. -/
def falDefaultDuration (v : JSVal) : JSVal :=
  match v with
  | .undef => .num 5
  | x => x

/-- The default applied to `aspectRatio` by the destructuring of
`generateVideo`. -/
def falDefaultAspect (v : JSVal) : JSVal :=
  match v with
  | .undef => .str "16:9"
  | x => x

/-- The allowed `aspectRatio` values (`validRatios`). -/
def validRatios : List String := ["16:9", "9:16", "1:1", "4:3", "21:9"]

/-- `FalClientService._validateInput` (identical in FalVideoService up to the
trailing api-key check): returns the message of the error it throws, or
`none` when validation passes.  A non-string or empty-string prompt fails the
`!prompt || typeof prompt !== 'string'` test. -/
def falValidateInput (prompt duration aspectRatio : JSVal) : Option String :=
  match prompt with
  | .str p =>
    if p = "" then some "Prompt is required and must be a string"
    else if (jsTrim p).length = 0 then some "Prompt cannot be empty"
    else if p.length > 1000 then some "Prompt must be less than 1000 characters"
    else
      match duration with
      | .undef =>
        match aspectRatio with
        | .undef => none
        | .str a => if a ∈ validRatios then none else some "Invalid aspect ratio"
        | _ => some "Invalid aspect ratio"
      | .num d =>
        if d < 1 ∨ d > 20 then some "Duration must be a number between 1 and 20 seconds"
        else
          match aspectRatio with
          | .undef => none
          | .str a => if a ∈ validRatios then none else some "Invalid aspect ratio"
          | _ => some "Invalid aspect ratio"
      | _ => some "Duration must be a number between 1 and 20 seconds"
  | _ => some "Prompt is required and must be a string"

/-- The outward result of calling an async operation: either an exception
escaped it (the promise rejected with an uncaught error), or it resolved to
a structured envelope of type `α`. -/
inductive Outcome (α : Type) where
  | thrown (msg : String)
  | envelope (env : α)
deriving DecidableEq, Repr

/-- The structured result object `FalClientService.generateVideo` resolves
to, restricted to its deterministic fields. -/
structure FalEnvelope where
  success : Bool
  videoUrl : Option String := none
  estimatedTime : Option String := none
  error : Option String := none
  errorType : Option String := none
  details : Option String := none
deriving DecidableEq, Repr

/-- The error envelope of the catch block of
`FalClientService.generateVideo`. -/
def falErrorEnvelope (i : ErrorInfo) : FalEnvelope :=
  { success := false, error := some i.message, errorType := some i.type,
    details := some i.details }

/-- The success envelope of `FalClientService.generateVideo`. -/
def falSuccessEnvelope (body : FalBody) : FalEnvelope :=
  { success := true, videoUrl := some body.video_url,
    estimatedTime := some (body.estimated_time.getD "30-60 seconds") }

/-- `FalClientService.generateVideo`.  The template-literal log line
`prompt.substring(0, 50)` runs before the try block, so a non-string prompt
throws a TypeError that escapes the operation.  Inside the try block,
validation errors and request errors are classified by `_handleError` and
returned as an error envelope.  The second component counts transport
invocations. -/
def falGenerateVideo (transport : Nat → TransportOutcome FalBody)
    (prompt duration aspectRatio : JSVal) : Outcome FalEnvelope × Nat :=
  match prompt with
  | .str p =>
    match falValidateInput (JSVal.str p) (falDefaultDuration duration)
        (falDefaultAspect aspectRatio) with
    | some msg =>
      (Outcome.envelope (falErrorEnvelope (falHandleError (ReqError.thrown msg))), 0)
    | none =>
      match falMakeRequestWithRetry transport with
      | (Except.ok body, n) => (Outcome.envelope (falSuccessEnvelope body), n)
      | (Except.error e, n) => (Outcome.envelope (falErrorEnvelope (falHandleError e)), n)
  | _ => (Outcome.thrown "TypeError: prompt.substring is not a function", 0)

/-- The base64 alphabet character for a sextet (RFC 4648, the encoding
`Buffer.prototype.toString('base64')` uses). -/
def encB64 (n : Nat) : Char :=
  if n < 26 then Char.ofNat (65 + n)
  else if n < 52 then Char.ofNat (97 + (n - 26))
  else if n < 62 then Char.ofNat (48 + (n - 52))
  else if n = 62 then '+'
  else '/'

/-- The sextet of a base64 alphabet character, `none` for characters outside
the alphabet (in particular for the padding character). -/
def decB64 (c : Char) : Option Nat :=
  let n := c.toNat
  if 65 ≤ n ∧ n ≤ 90 then some (n - 65)
  else if 97 ≤ n ∧ n ≤ 122 then some (n - 97 + 26)
  else if 48 ≤ n ∧ n ≤ 57 then some (n - 48 + 52)
  else if n = 43 then some 62
  else if n = 47 then some 63
  else none

/-- Base64 encoding of a byte list (bytes as naturals below 256), three
bytes to four characters with `=` padding, as
`Buffer.from(bytes).toString('base64')` produces. -/
def b64Encode : List Nat → List Char
  | [] => []
  | [a] => [encB64 (a / 4), encB64 (a % 4 * 16), '=', '=']
  | [a, b] => [encB64 (a / 4), encB64 (a % 4 * 16 + b / 16), encB64 (b % 16 * 4), '=']
  | a :: b :: c :: rest =>
    encB64 (a / 4) :: encB64 (a % 4 * 16 + b / 16) ::
      encB64 (b % 16 * 4 + c / 64) :: encB64 (c % 64) :: b64Encode rest

/-- Base64 decoding, the inverse direction a consumer of the envelope
applies to the `audioBase64` field: four characters back to three bytes,
with the two padded final-group forms. -/
def b64Decode : List Char → Option (List Nat)
  | [] => some []
  | w :: x :: y :: z :: rest =>
    match decB64 w, decB64 x, decB64 y, decB64 z with
    | some a, some b, some c, some d =>
      (b64Decode rest).map fun bs =>
        (a * 4 + b / 16) :: (b % 16 * 16 + c / 4) :: (c % 4 * 64 + d) :: bs
    | some a, some b, some c, none =>
      if z = '=' ∧ rest = [] then some [a * 4 + b / 16, b % 16 * 16 + c / 4] else none
    | some a, some b, none, none =>
      if y = '=' ∧ z = '=' ∧ rest = [] then some [a * 4 + b / 16] else none
    | _, _, _, _ => none
  | _ => none

/-- The structured result object `ElevenLabsService.generateSpeech` resolves
to, restricted to its deterministic fields. -/
structure ELEnvelope where
  success : Bool
  error : Option String := none
  errorType : Option String := none
  details : Option String := none
  audioBase64 : List Char := []
  audioFormat : Option String := none
  audioSize : Nat := 0
deriving DecidableEq, Repr

/-- The default `voiceId = '21m00Tcm4TlvDq8ikWAM'` of the `generateSpeech`
parameter list, applied only when the caller leaves the argument
undefined. -/
def elDefaultVoice (v : JSVal) : JSVal :=
  match v with
  | .undef => .str "21m00Tcm4TlvDq8ikWAM"
  | x => x

/-- `ElevenLabsService._validateInput(text, voiceId)`: the message of the
error it throws, or `none` when both fields pass. -/
def elValidateInput (text voiceId : JSVal) : Option String :=
  match text with
  | .str t =>
    if t = "" then some "Text is required and must be a string"
    else if (jsTrim t).length = 0 then some "Text cannot be empty"
    else if t.length > 5000 then some "Text must be less than 5000 characters"
    else
      match voiceId with
      | .str v =>
        if v = "" then some "Voice ID is required and must be a string"
        else if v.length < 10 then some "Invalid voice ID format"
        else none
      | _ => some "Voice ID is required and must be a string"
  | _ => some "Text is required and must be a string"

/-- The switch over `error.response.status` in the catch block of
`generateSpeech`. -/
def elSpeechHttpEnvelope (s : Nat) (eb : Option String) : ELEnvelope :=
  if s = 401 then
    { success := false, error := some "Invalid ElevenLabs API key",
      errorType := some "INVALID_API_KEY", details := eb }
  else if s = 404 then
    { success := false, error := some "Invalid voice ID or ElevenLabs API endpoint",
      errorType := some "INVALID_VOICE_OR_URL", details := eb }
  else if s = 429 then
    { success := false, error := some "Rate limit exceeded - too many requests to ElevenLabs",
      errorType := some "RATE_LIMITED", details := eb }
  else if s = 400 then
    { success := false, error := some "Bad request - invalid parameters",
      errorType := some "BAD_REQUEST", details := eb }
  else if s = 402 then
    { success := false, error := some "Payment required - insufficient ElevenLabs credits",
      errorType := some "PAYMENT_REQUIRED", details := eb }
  else if s = 500 ∨ s = 502 ∨ s = 503 ∨ s = 504 then
    { success := false, error := some ("ElevenLabs server error (" ++ toString s ++ ")"),
      errorType := some "SERVER_ERROR", details := eb }
  else
    { success := false, error := some ("ElevenLabs API error (" ++ toString s ++ ")"),
      errorType := some "API_ERROR", details := eb }

/-- The `error.code` branches of the catch block of `generateSpeech`; an
unrecognised code falls through to the final UNKNOWN_ERROR branch. -/
def elSpeechNetEnvelope (c m : String) : ELEnvelope :=
  if c = "ECONNABORTED" then
    { success := false, error := some "Request timeout - ElevenLabs API not responding",
      errorType := some "TIMEOUT" }
  else if c = "ENOTFOUND" ∨ c = "ECONNREFUSED" then
    { success := false, error := some "Network error - unable to connect to ElevenLabs",
      errorType := some "NETWORK_ERROR" }
  else
    { success := false, error := some "Unexpected error during speech synthesis",
      errorType := some "UNKNOWN_ERROR", details := some m }

/-- `ElevenLabsService.generateSpeech(text, voiceId, stability, similarity)`.
The log line `text.substring(0, 100)` runs before the disabled check, so a
non-string text throws a TypeError that escapes the operation.  The disabled
check precedes validation; validation errors are caught by the final catch
branch (the thrown Error has neither `response` nor `code`) and surface as
UNKNOWN_ERROR.  The dead `INVALID_VOICE_ID` return is kept as in the source.
`stability`/`similarity` only enter the provider payload, which is not part
of the envelope.  The second component counts transport invocations. -/
def elGenerateSpeech (disabled : Bool) (transport : TransportOutcome (List Nat))
    (text voiceId _stability _similarity : JSVal) : Outcome ELEnvelope × Nat :=
  let vid := elDefaultVoice voiceId
  match text with
  | .str t =>
    if disabled then
      (Outcome.envelope
        { success := false,
          error := some "ElevenLabs service is disabled - API key not configured",
          errorType := some "SERVICE_DISABLED" }, 0)
    else
      match elValidateInput (JSVal.str t) vid with
      | some msg =>
        (Outcome.envelope
          { success := false, error := some "Unexpected error during speech synthesis",
            errorType := some "UNKNOWN_ERROR", details := some msg }, 0)
      | none =>
        if jsFalsy vid || !isStr vid then
          (Outcome.envelope
            { success := false, error := some "Invalid voice ID provided",
              errorType := some "INVALID_VOICE_ID" }, 0)
        else
          match transport with
          | .success bytes =>
            (Outcome.envelope
              { success := true, audioBase64 := b64Encode bytes,
                audioFormat := some "audio/mpeg", audioSize := bytes.length }, 1)
          | .httpError s eb => (Outcome.envelope (elSpeechHttpEnvelope s eb), 1)
          | .netError c m => (Outcome.envelope (elSpeechNetEnvelope c m), 1)
          | .thrown m =>
            (Outcome.envelope
              { success := false, error := some "Unexpected error during speech synthesis",
                errorType := some "UNKNOWN_ERROR", details := some m }, 1)
  | _ => (Outcome.thrown "TypeError: text.substring is not a function", 0)

/-- The health object `ElevenLabsService.checkHealth` resolves to. -/
structure ELHealth where
  status : String
  elevenLabsReachable : Bool
deriving DecidableEq, Repr

/-- `ElevenLabsService.checkHealth`: one unconditional GET to `/voices`.
The method never consults the `disabled` flag, so the probe is issued (one
transport invocation) whether or not the service is disabled. -/
def elCheckHealth (_disabled : Bool) (transport : TransportOutcome Unit) :
    ELHealth × Nat :=
  match transport with
  | .success _ => ({ status := "healthy", elevenLabsReachable := true }, 1)
  | _ => ({ status := "unhealthy", elevenLabsReachable := false }, 1)

/-- Success flag of a speech-operation outcome (`false` when an exception
escaped). -/
def elOutcomeSuccess : Outcome ELEnvelope → Bool
  | .envelope e => e.success
  | .thrown _ => false

/-- Error type of a speech-operation outcome (`none` when an exception
escaped or on success). -/
def elOutcomeErrorType : Outcome ELEnvelope → Option String
  | .envelope e => e.errorType
  | .thrown _ => none

/-- Success flag of a video-operation outcome. -/
def falOutcomeSuccess : Outcome FalEnvelope → Bool
  | .envelope e => e.success
  | .thrown _ => false

/-- `FalVideoService._validateInput`: the field checks of
`falValidateInput` followed by the trailing `if (!this.apiKey)` check. -/
def falVideoValidateInput (apiKey : Option String)
    (prompt duration aspectRatio : JSVal) : Option String :=
  match falValidateInput prompt duration aspectRatio with
  | some msg => some msg
  | none =>
    match apiKey with
    | none => some "Fal.ai API key not configured"
    | some k => if k = "" then some "Fal.ai API key not configured" else none

/-- The message of the Error the catch block of
`FalVideoService.generateVideo` rethrows for an HTTP error response. -/
def falVideoHttpMsg (s : Nat) (eb : Option String) : String :=
  if s = 401 then "Invalid Fal.ai API key"
  else if s = 429 then "Rate limit exceeded. Please try again later"
  else if s = 400 then "Bad request: " ++ eb.getD "Invalid parameters"
  else if s ≥ 500 then "Fal.ai server error. Please try again later"
  else "Fal.ai API error: " ++ eb.getD "Unknown error"

/-- `FalVideoService.generateVideo` (falVideo.service.js): a single
non-retried transport call whose catch block rethrows a new Error for every
failure — classified failures are thrown past the operation boundary, never
returned as an envelope.  The second component counts transport
invocations. -/
def falVideoGenerateVideo (apiKey : Option String)
    (transport : TransportOutcome FalBody)
    (prompt duration aspectRatio : JSVal) : Outcome FalEnvelope × Nat :=
  match falVideoValidateInput apiKey prompt (falDefaultDuration duration)
      (falDefaultAspect aspectRatio) with
  | some msg => (Outcome.thrown ("Video generation failed: " ++ msg), 0)
  | none =>
    match transport with
    | .success body => (Outcome.envelope (falSuccessEnvelope body), 1)
    | .httpError s eb => (Outcome.thrown (falVideoHttpMsg s eb), 1)
    | .netError c m =>
      if c = "ECONNABORTED" then
        (Outcome.thrown "Request timeout. Video generation may take longer than expected", 1)
      else if c = "ENOTFOUND" ∨ c = "ECONNREFUSED" then
        (Outcome.thrown "Network error. Unable to connect to Fal.ai", 1)
      else
        (Outcome.thrown ("Video generation failed: " ++ m), 1)
    | .thrown m => (Outcome.thrown ("Video generation failed: " ++ m), 1)

/-- `_getStatusCodeForError` of routes/video.js. -/
def videoGetStatusCodeForError (errorType : String) : Nat :=
  if errorType = "INVALID_API_KEY" ∨ errorType = "MISSING_API_KEY" then 500
  else if errorType = "NO_CREDITS" then 402
  else if errorType = "RATE_LIMITED" then 429
  else if errorType = "ACCESS_DENIED" then 403
  else if errorType = "TIMEOUT" ∨ errorType = "NETWORK_ERROR" ∨
      errorType = "SERVER_ERROR" then 503
  else if errorType = "VALIDATION_ERROR" then 400
  else 500

/-- `_getStatusCodeForError` of routes/audio.js. -/
def audioGetStatusCodeForError (errorType : String) : Nat :=
  if errorType = "INVALID_API_KEY" ∨ errorType = "MISSING_API_KEY" then 500
  else if errorType = "PAYMENT_REQUIRED" then 402
  else if errorType = "RATE_LIMITED" then 429
  else if errorType = "ACCESS_DENIED" then 403
  else if errorType = "TIMEOUT" ∨ errorType = "NETWORK_ERROR" ∨
      errorType = "SERVER_ERROR" then 503
  else if errorType = "BAD_REQUEST" ∨ errorType = "VALIDATION_ERROR" then 400
  else 500

/-- The outward HTTP status the `POST /api/video/generate` handler sends for
a generate result: 200 on success, otherwise the mapped error status. -/
def videoRouteStatus (env : FalEnvelope) : Nat :=
  if env.success then 200 else videoGetStatusCodeForError (env.errorType.getD "")

/-- The outward HTTP status the `POST /api/audio/tts` handler sends for a
speech result: 200 on success, otherwise the mapped error status. -/
def audioRouteStatus (env : ELEnvelope) : Nat :=
  if env.success then 200 else audioGetStatusCodeForError (env.errorType.getD "")

/-- The stability/similarity normalization of the `POST /tts` route: an
omitted or non-numeric value keeps the default; a numeric value above 1 is
read as a percentage and divided by 100, then clamped to the unit interval;
any other numeric value is clamped directly. -/
def normalizeTuning (deflt : ℚ) (v : JSVal) : ℚ :=
  match v with
  | .num q => if q > 1 then min (max (q / 100) 0) 1 else min (max q 0) 1
  | _ => deflt

/-- `normalizedStability` of the `POST /tts` handler (default 0.5). -/
def normalizedStability (v : JSVal) : ℚ := normalizeTuning (1 / 2) v

/-- `normalizedSimilarity` of the `POST /tts` handler (default 0.8). -/
def normalizedSimilarity (v : JSVal) : ℚ := normalizeTuning (4 / 5) v

/-- Unfolding of one allowed loop iteration. -/
lemma falRetryLoop_succ (transport : Nat → TransportOutcome FalBody)
    (attempt fuel : Nat) (lastError : Option ReqError) :
    falRetryLoop transport attempt (fuel + 1) lastError =
      match transport attempt with
      | .success b => (Except.ok b, 1)
      | .httpError s eb =>
        if noRetryStatus s then
          (Except.error (ReqError.httpError s eb), 1)
        else
          let r := falRetryLoop transport (attempt + 1) fuel (some (ReqError.httpError s eb))
          (r.1, r.2 + 1)
      | .netError c m =>
        let r := falRetryLoop transport (attempt + 1) fuel (some (ReqError.netError c m))
        (r.1, r.2 + 1)
      | .thrown m =>
        let r := falRetryLoop transport (attempt + 1) fuel (some (ReqError.thrown m))
        (r.1, r.2 + 1) := by
  rw [falRetryLoop]

/-- Exhausted loop: the last error is thrown without another attempt. -/
lemma falRetryLoop_zero (transport : Nat → TransportOutcome FalBody)
    (attempt : Nat) (e : ReqError) :
    falRetryLoop transport attempt 0 (some e) = (Except.error e, 0) := by
  rw [falRetryLoop]
  rfl

/-- A first attempt failing with a status in the no-retry set is rethrown at
once: one transport call. -/
lemma falRequest_noRetry_first (transport : Nat → TransportOutcome FalBody)
    (s : Nat) (eb : Option String) (h1 : transport 1 = .httpError s eb)
    (hs : noRetryStatus s = true) :
    falMakeRequestWithRetry transport = (Except.error (ReqError.httpError s eb), 1) := by
  rw [falMakeRequestWithRetry, falMaxRetries, falRetryLoop_succ, h1]
  simp [hs]

/-- A first attempt failing with a retryable HTTP status followed by a second
HTTP failure: two transport calls, the second error is thrown. -/
lemma falRequest_two_httpErrors (transport : Nat → TransportOutcome FalBody)
    (s₁ s₂ : Nat) (eb₁ eb₂ : Option String)
    (h1 : transport 1 = .httpError s₁ eb₁) (hs : noRetryStatus s₁ = false)
    (h2 : transport 2 = .httpError s₂ eb₂) :
    falMakeRequestWithRetry transport = (Except.error (ReqError.httpError s₂ eb₂), 2) := by
  rw [falMakeRequestWithRetry, falMaxRetries, falRetryLoop_succ, h1]
  simp only [hs, Bool.false_eq_true, if_false]
  rw [falRetryLoop_succ, h2]
  by_cases h : noRetryStatus s₂ = true
  · simp [h]
  · simp only [h, Bool.false_eq_true, if_false]
    rw [falRetryLoop_zero]

/-- C1: the claim asserts that every 4xx transport failure is returned
without a second attempt.  The code only short-circuits 401, 403, 402 and
429: a transport that always fails with HTTP 400 is invoked twice, the
second attempt being the retry the claim (and the comments of
`_makeRequestWithRetry`) rule out.  This theorem evaluates the retry
operation at that failing input. -/
theorem c1_http400_is_retried :
    falMakeRequestWithRetry (fun _ => TransportOutcome.httpError 400 none) =
      (Except.error (ReqError.httpError 400 none), 2) := by
  exact falRequest_two_httpErrors _ 400 400 none none rfl rfl rfl

/-- C2: a transport failing with HTTP 500 on every attempt is invoked at
most twice by `_makeRequestWithRetry`, and `_handleError` classifies the
resulting failure as SERVER_ERROR. -/
theorem c2_always500_retry_bound (transport : Nat → TransportOutcome FalBody)
    (h : ∀ n, ∃ eb, transport n = TransportOutcome.httpError 500 eb) :
    (falMakeRequestWithRetry transport).2 ≤ 2 ∧
      ∃ eb, (falMakeRequestWithRetry transport).1 =
          Except.error (ReqError.httpError 500 eb) ∧
        (falHandleError (ReqError.httpError 500 eb)).type = "SERVER_ERROR" := by
  obtain ⟨eb₁, h1⟩ := h 1
  obtain ⟨eb₂, h2⟩ := h 2
  have heq := falRequest_two_httpErrors transport 500 500 eb₁ eb₂ h1 rfl h2
  rw [heq]
  exact ⟨by norm_num, eb₂, rfl, rfl⟩

/-- Witness for C2 at the constantly failing transport with status 500. -/
theorem c2_always500_retry_bound_witness :
    (falMakeRequestWithRetry (fun _ => TransportOutcome.httpError 500 none)).2 ≤ 2 ∧
      ∃ eb, (falMakeRequestWithRetry (fun _ => TransportOutcome.httpError 500 none)).1 =
          Except.error (ReqError.httpError 500 eb) ∧
        (falHandleError (ReqError.httpError 500 eb)).type = "SERVER_ERROR" :=
  c2_always500_retry_bound _ (fun _ => ⟨none, rfl⟩)

/-- C3: a transport whose first attempt fails with HTTP 401 causes exactly
one transport invocation; the failure is rethrown with no retry. -/
theorem c3_http401_single_call (transport : Nat → TransportOutcome FalBody)
    (eb : Option String) (h : transport 1 = TransportOutcome.httpError 401 eb) :
    falMakeRequestWithRetry transport = (Except.error (ReqError.httpError 401 eb), 1) :=
  falRequest_noRetry_first transport 401 eb h rfl

/-- Witness for C3 at the transport constantly returning 401. -/
theorem c3_http401_single_call_witness :
    falMakeRequestWithRetry (fun _ => TransportOutcome.httpError 401 none) =
      (Except.error (ReqError.httpError 401 none), 1) :=
  c3_http401_single_call _ none rfl

/-- Decoding inverts the alphabet map on every sextet. -/
lemma decB64_encB64 (n : Nat) (h : n < 64) : decB64 (encB64 n) = some n := by
  interval_cases n <;> rfl

/-- The padding character is outside the alphabet. -/
lemma decB64_pad : decB64 '=' = none := rfl

/-- Base64 round-trip: decoding the encoding of any byte list returns
exactly the original bytes. -/
theorem b64_roundtrip : ∀ bs : List Nat, (∀ b ∈ bs, b < 256) →
    b64Decode (b64Encode bs) = some bs
  | [], _ => rfl
  | [a], h => by
    have ha : a < 256 := h a (by simp)
    have h1 := decB64_encB64 (a / 4) (by omega)
    have h2 := decB64_encB64 (a % 4 * 16) (by omega)
    simp only [b64Encode, b64Decode, h1, h2, decB64_pad]
    simp only [decB64_pad, and_self, reduceIte]
    simp
    all_goals omega
  | [a, b], h => by
    have ha : a < 256 := h a (by simp)
    have hb : b < 256 := h b (by simp)
    have h1 := decB64_encB64 (a / 4) (by omega)
    have h2 := decB64_encB64 (a % 4 * 16 + b / 16) (by omega)
    have h3 := decB64_encB64 (b % 16 * 4) (by omega)
    simp only [b64Encode, b64Decode, h1, h2, h3, decB64_pad]
    simp
    all_goals omega
  | a :: b :: c :: rest, h => by
    have ha : a < 256 := h a (by simp)
    have hb : b < 256 := h b (by simp)
    have hc : c < 256 := h c (by simp)
    have ih := b64_roundtrip rest (fun x hx => h x (by simp [hx]))
    have h1 := decB64_encB64 (a / 4) (by omega)
    have h2 := decB64_encB64 (a % 4 * 16 + b / 16) (by omega)
    have h3 := decB64_encB64 (b % 16 * 4 + c / 64) (by omega)
    have h4 := decB64_encB64 (c % 64) (by omega)
    simp only [b64Encode, b64Decode, h1, h2, h3, h4, ih, Option.map_some]
    simp
    all_goals omega

/-- C4 counterexample: with the service disabled, `checkHealth` still
performs its network probe — one transport invocation, and a plain health
result rather than a SERVICE_DISABLED classification.  This refutes the
claim that every operation of a disabled client returns SERVICE_DISABLED
with zero transport invocations. -/
theorem c4_checkHealth_probes_when_disabled :
    (elCheckHealth true (TransportOutcome.success ())).2 = 1 ∧
      ¬ ((elCheckHealth true (TransportOutcome.success ())).2 = 0 ∧
        (elCheckHealth true (TransportOutcome.success ())).1.status =
          "SERVICE_DISABLED") := by
  decide

/-- C4 (amended): when the ElevenLabs client is disabled, `generateSpeech`
returns a SERVICE_DISABLED error envelope immediately with zero transport
invocations, for every string text and any remaining arguments; `checkHealth`
is the exception — it issues its probe regardless of the disabled flag. -/
theorem c4_disabled_generateSpeech_no_io (transport : TransportOutcome (List Nat))
    (t : String) (voiceId st sim : JSVal) :
    (elGenerateSpeech true transport (JSVal.str t) voiceId st sim).2 = 0 ∧
      ∃ env, (elGenerateSpeech true transport (JSVal.str t) voiceId st sim).1 =
          Outcome.envelope env ∧ env.success = false ∧
          env.errorType = some "SERVICE_DISABLED" :=
  ⟨rfl, _, rfl, rfl, rfl⟩

/-- C5: a numeric tuning value above 1 normalizes to the value divided by
100 and clamped to the unit interval; a numeric value already in the unit
interval is returned unchanged — for both the stability and the similarity
parameter of the `POST /tts` handler. -/
theorem c5_tuning_normalization (q : ℚ) :
    (q > 1 → normalizedStability (JSVal.num q) = min (max (q / 100) 0) 1 ∧
      normalizedSimilarity (JSVal.num q) = min (max (q / 100) 0) 1) ∧
    (0 ≤ q → q ≤ 1 → normalizedStability (JSVal.num q) = q ∧
      normalizedSimilarity (JSVal.num q) = q) := by
  constructor
  · intro hq
    constructor <;> simp [normalizedStability, normalizedSimilarity, normalizeTuning, hq]
  · intro h0 h1
    have hq : ¬ q > 1 := not_lt.mpr h1
    constructor <;>
      simp [normalizedStability, normalizedSimilarity, normalizeTuning, hq,
        max_eq_left h0, min_eq_left h1]

/-- Witness for C5 at the percentage-scale value 55 and the unit-scale value
one half. -/
theorem c5_tuning_normalization_witness :
    ((55 : ℚ) > 1 ∧ normalizedStability (JSVal.num 55) = min (max ((55 : ℚ) / 100) 0) 1 ∧
      normalizedSimilarity (JSVal.num 55) = min (max ((55 : ℚ) / 100) 0) 1) ∧
    ((0 : ℚ) ≤ 1 / 2 ∧ (1 / 2 : ℚ) ≤ 1 ∧
      normalizedStability (JSVal.num (1 / 2)) = 1 / 2 ∧
      normalizedSimilarity (JSVal.num (1 / 2)) = 1 / 2) := by
  have h55 := (c5_tuning_normalization 55).1 (by norm_num)
  have hhalf := (c5_tuning_normalization (1 / 2)).2 (by norm_num) (by norm_num)
  exact ⟨⟨by norm_num, h55.1, h55.2⟩, by norm_num, by norm_num, hhalf.1, hhalf.2⟩

/-- C6 counterexample: for a missing (undefined) prompt the Fal generate
operation does not reject with a validation error — the pre-try logging
line `prompt.substring(0, 50)` throws a TypeError that escapes the
operation.  The transport is still never invoked. -/
theorem c6_missing_prompt_throws_typeerror :
    (falGenerateVideo (fun _ => TransportOutcome.success ⟨"url", none⟩)
        JSVal.undef JSVal.undef JSVal.undef).1 =
      Outcome.thrown "TypeError: prompt.substring is not a function" ∧
      (falGenerateVideo (fun _ => TransportOutcome.success ⟨"url", none⟩)
        JSVal.undef JSVal.undef JSVal.undef).2 = 0 := by
  decide

/-- C6 (amended): the transport is never invoked when the required field is
missing, non-string, or trims to empty, but the rejection takes two forms.
A string field that trims to empty is rejected by `_validateInput` and the
generate operation returns a validation-failure envelope (surfaced with
error type UNKNOWN_ERROR by the catch block); a missing or non-string
field instead makes the operation throw a TypeError from the logging line
that precedes validation.  In every case the transport call count is
zero. -/
theorem c6_required_field_rejection_shape :
    (∀ (tF : Nat → TransportOutcome FalBody) (s : String) (duration aspectRatio : JSVal),
      jsTrim s = "" →
      (∃ env, (falGenerateVideo tF (JSVal.str s) duration aspectRatio).1 =
          Outcome.envelope env ∧ env.success = false ∧
          env.errorType = some "UNKNOWN_ERROR") ∧
        (falGenerateVideo tF (JSVal.str s) duration aspectRatio).2 = 0) ∧
    (∀ (tF : Nat → TransportOutcome FalBody) (prompt duration aspectRatio : JSVal),
      isStr prompt = false →
      (falGenerateVideo tF prompt duration aspectRatio).1 =
        Outcome.thrown "TypeError: prompt.substring is not a function" ∧
      (falGenerateVideo tF prompt duration aspectRatio).2 = 0) ∧
    (∀ (tE : TransportOutcome (List Nat)) (t : String) (voiceId st sim : JSVal),
      jsTrim t = "" →
      (∃ env, (elGenerateSpeech false tE (JSVal.str t) voiceId st sim).1 =
          Outcome.envelope env ∧ env.success = false ∧
          env.errorType = some "UNKNOWN_ERROR") ∧
        (elGenerateSpeech false tE (JSVal.str t) voiceId st sim).2 = 0) ∧
    (∀ (tE : TransportOutcome (List Nat)) (text voiceId st sim : JSVal),
      isStr text = false →
      (elGenerateSpeech false tE text voiceId st sim).1 =
        Outcome.thrown "TypeError: text.substring is not a function" ∧
      (elGenerateSpeech false tE text voiceId st sim).2 = 0) := by
  refine ⟨?_, ?_, ?_, ?_⟩
  · intro tF s duration aspectRatio hs
    by_cases hse : s = ""
    · subst hse
      refine ⟨⟨falErrorEnvelope (falHandleError
          (ReqError.thrown "Prompt is required and must be a string")), ?_, ?_, ?_⟩, ?_⟩
      · simp [falGenerateVideo, falValidateInput]
      · simp [falErrorEnvelope]
      · simp [falErrorEnvelope, falHandleError]
      · simp [falGenerateVideo, falValidateInput]
    · refine ⟨⟨falErrorEnvelope (falHandleError
          (ReqError.thrown "Prompt cannot be empty")), ?_, ?_, ?_⟩, ?_⟩
      · simp [falGenerateVideo, falValidateInput, hse, hs]
      · simp [falErrorEnvelope]
      · simp [falErrorEnvelope, falHandleError]
      · simp [falGenerateVideo, falValidateInput, hse, hs]
  · intro tF prompt duration aspectRatio hp
    cases prompt with
    | str s => simp [isStr] at hp
    | undef => exact ⟨rfl, rfl⟩
    | nullv => exact ⟨rfl, rfl⟩
    | num q => exact ⟨rfl, rfl⟩
    | bool b => exact ⟨rfl, rfl⟩
  · intro tE t voiceId st sim hs
    by_cases hse : t = ""
    · subst hse
      refine ⟨?_, ?_⟩
      · refine ⟨{ success := false,
                  error := some "Unexpected error during speech synthesis",
                  errorType := some "UNKNOWN_ERROR",
                  details := some "Text is required and must be a string" },
                ?_, rfl, rfl⟩
        simp [elGenerateSpeech, elValidateInput]
      · simp [elGenerateSpeech, elValidateInput]
    · refine ⟨?_, ?_⟩
      · refine ⟨{ success := false,
                  error := some "Unexpected error during speech synthesis",
                  errorType := some "UNKNOWN_ERROR",
                  details := some "Text cannot be empty" },
                ?_, rfl, rfl⟩
        simp [elGenerateSpeech, elValidateInput, hse, hs]
      · simp [elGenerateSpeech, elValidateInput, hse, hs]
  · intro tE text voiceId st sim ht
    cases text with
    | str s => simp [isStr] at ht
    | undef => exact ⟨rfl, rfl⟩
    | nullv => exact ⟨rfl, rfl⟩
    | num q => exact ⟨rfl, rfl⟩
    | bool b => exact ⟨rfl, rfl⟩

/-- Witness for C6 (amended) at a whitespace-only prompt, a null prompt, an
empty text and a numeric text. -/
theorem c6_required_field_rejection_shape_witness :
    jsTrim "   " = "" ∧ isStr JSVal.nullv = false ∧ isStr (JSVal.num 3) = false ∧
      ((∃ env, (falGenerateVideo (fun _ => TransportOutcome.success ⟨"url", none⟩)
          (JSVal.str "   ") JSVal.undef JSVal.undef).1 = Outcome.envelope env ∧
          env.success = false ∧ env.errorType = some "UNKNOWN_ERROR") ∧
        (falGenerateVideo (fun _ => TransportOutcome.success ⟨"url", none⟩)
          (JSVal.str "   ") JSVal.undef JSVal.undef).2 = 0) ∧
      ((falGenerateVideo (fun _ => TransportOutcome.success ⟨"url", none⟩)
          JSVal.nullv JSVal.undef JSVal.undef).1 =
        Outcome.thrown "TypeError: prompt.substring is not a function" ∧
        (falGenerateVideo (fun _ => TransportOutcome.success ⟨"url", none⟩)
          JSVal.nullv JSVal.undef JSVal.undef).2 = 0) ∧
      ((∃ env, (elGenerateSpeech false (TransportOutcome.success []) (JSVal.str "")
          JSVal.undef JSVal.undef JSVal.undef).1 = Outcome.envelope env ∧
          env.success = false ∧ env.errorType = some "UNKNOWN_ERROR") ∧
        (elGenerateSpeech false (TransportOutcome.success []) (JSVal.str "")
          JSVal.undef JSVal.undef JSVal.undef).2 = 0) ∧
      ((elGenerateSpeech false (TransportOutcome.success []) (JSVal.num 3)
          JSVal.undef JSVal.undef JSVal.undef).1 =
        Outcome.thrown "TypeError: text.substring is not a function" ∧
        (elGenerateSpeech false (TransportOutcome.success []) (JSVal.num 3)
          JSVal.undef JSVal.undef JSVal.undef).2 = 0) := by
  have h1 := c6_required_field_rejection_shape.1
    (fun _ => TransportOutcome.success ⟨"url", none⟩) "   " JSVal.undef JSVal.undef
    (by decide)
  have h2 := c6_required_field_rejection_shape.2.1
    (fun _ => TransportOutcome.success ⟨"url", none⟩) JSVal.nullv JSVal.undef JSVal.undef
    (by decide)
  have h3 := c6_required_field_rejection_shape.2.2.1
    (TransportOutcome.success []) "" JSVal.undef JSVal.undef JSVal.undef (by decide)
  have h4 := c6_required_field_rejection_shape.2.2.2
    (TransportOutcome.success []) (JSVal.num 3) JSVal.undef JSVal.undef JSVal.undef
    (by decide)
  exact ⟨by decide, by decide, by decide, h1, h2, h3, h4⟩

/-- C7 counterexample: `FalVideoService.generateVideo` does not return its
failure classifications as a structured result — on a 401 transport
response with a valid prompt it throws the classified Error past the
operation boundary. -/
theorem c7_falVideo_throws_on_401 :
    falVideoGenerateVideo (some "0123456789key") (TransportOutcome.httpError 401 none)
        (JSVal.str "A beautiful sunset") JSVal.undef JSVal.undef =
      (Outcome.thrown "Invalid Fal.ai API key", 1) := by
  decide

/-- C7 (amended): for every transport outcome, `FalClientService.generateVideo`
with a string prompt resolves to a structured envelope — no exception
escapes, and a failure envelope always carries an error type;
`FalVideoService.generateVideo`, by contrast, never resolves to a failure
envelope: it either succeeds or throws the classified error to its
caller. -/
theorem c7_failures_structured_for_falClient
    (tF : Nat → TransportOutcome FalBody) (p : String) (duration aspectRatio : JSVal)
    (apiKey : Option String) (tV : TransportOutcome FalBody)
    (prompt d₂ ar₂ : JSVal) :
    (∃ env, (falGenerateVideo tF (JSVal.str p) duration aspectRatio).1 =
        Outcome.envelope env ∧ (env.success = false → env.errorType.isSome = true)) ∧
    ((∃ env, (falVideoGenerateVideo apiKey tV prompt d₂ ar₂).1 =
        Outcome.envelope env ∧ env.success = true) ∨
      ∃ m, (falVideoGenerateVideo apiKey tV prompt d₂ ar₂).1 = Outcome.thrown m) := by
  constructor
  · cases hv : falValidateInput (JSVal.str p) (falDefaultDuration duration)
        (falDefaultAspect aspectRatio) with
    | some msg =>
      exact ⟨falErrorEnvelope (falHandleError (ReqError.thrown msg)),
        by simp [falGenerateVideo, hv], by simp [falErrorEnvelope]⟩
    | none =>
      rcases hr : falMakeRequestWithRetry tF with ⟨res, n⟩
      cases res with
      | ok body =>
        refine ⟨falSuccessEnvelope body, by simp [falGenerateVideo, hv, hr], ?_⟩
        simp [falSuccessEnvelope]
      | error e =>
        refine ⟨falErrorEnvelope (falHandleError e), by simp [falGenerateVideo, hv, hr], ?_⟩
        simp [falErrorEnvelope]
  · cases hv : falVideoValidateInput apiKey prompt (falDefaultDuration d₂)
        (falDefaultAspect ar₂) with
    | some msg =>
      exact Or.inr ⟨"Video generation failed: " ++ msg,
        by simp [falVideoGenerateVideo, hv]⟩
    | none =>
      cases tV with
      | success body =>
        exact Or.inl ⟨falSuccessEnvelope body, by simp [falVideoGenerateVideo, hv],
          by simp [falSuccessEnvelope]⟩
      | httpError s eb =>
        exact Or.inr ⟨falVideoHttpMsg s eb, by simp [falVideoGenerateVideo, hv]⟩
      | netError c m =>
        by_cases h1 : c = "ECONNABORTED"
        · exact Or.inr ⟨"Request timeout. Video generation may take longer than expected",
            by simp [falVideoGenerateVideo, hv, h1]⟩
        · by_cases h2 : c = "ENOTFOUND" ∨ c = "ECONNREFUSED"
          · exact Or.inr ⟨"Network error. Unable to connect to Fal.ai",
              by simp [falVideoGenerateVideo, hv, h1, h2]⟩
          · exact Or.inr ⟨"Video generation failed: " ++ m,
              by simp [falVideoGenerateVideo, hv, h1, h2]⟩
      | thrown m =>
        exact Or.inr ⟨"Video generation failed: " ++ m, by simp [falVideoGenerateVideo, hv]⟩

/-- A voice id that passes `_validateInput` is a non-empty string of length
at least 10; in particular it is truthy and a string. -/
lemma elValidateInput_voice_ok (text vid : JSVal)
    (h : elValidateInput text vid = none) : (jsFalsy vid || !isStr vid) = false := by
  cases text with
  | str t =>
    cases vid with
    | str v =>
      simp only [elValidateInput] at h
      split_ifs at h
      simp_all [jsFalsy, isStr]
    | undef =>
      simp only [elValidateInput] at h
      split_ifs at h
    | nullv =>
      simp only [elValidateInput] at h
      split_ifs at h
    | num q =>
      simp only [elValidateInput] at h
      split_ifs at h
    | bool b =>
      simp only [elValidateInput] at h
      split_ifs at h
  | undef => simp [elValidateInput] at h
  | nullv => simp [elValidateInput] at h
  | num q => simp [elValidateInput] at h
  | bool b => simp [elValidateInput] at h

/-- C8: a provider response with HTTP status 429 yields a failure envelope
with error type RATE_LIMITED, and both route handlers map it to outward
HTTP status 429 — for the Fal video path (where 429 is in the no-retry set)
and for the ElevenLabs speech path. -/
theorem c8_rate_limited_maps_to_429 :
    (∀ (tF : Nat → TransportOutcome FalBody) (p : String)
        (duration aspectRatio : JSVal) (eb : Option String),
      falValidateInput (JSVal.str p) (falDefaultDuration duration)
          (falDefaultAspect aspectRatio) = none →
      tF 1 = TransportOutcome.httpError 429 eb →
      ∃ env, (falGenerateVideo tF (JSVal.str p) duration aspectRatio).1 =
          Outcome.envelope env ∧ env.success = false ∧
          env.errorType = some "RATE_LIMITED" ∧ videoRouteStatus env = 429) ∧
    (∀ (t v : String) (st sim : JSVal) (eb : Option String),
      elValidateInput (JSVal.str t) (JSVal.str v) = none →
      ∃ env, (elGenerateSpeech false (TransportOutcome.httpError 429 eb)
          (JSVal.str t) (JSVal.str v) st sim).1 = Outcome.envelope env ∧
        env.success = false ∧ env.errorType = some "RATE_LIMITED" ∧
        audioRouteStatus env = 429) := by
  constructor
  · intro tF p duration aspectRatio eb hval h429
    have hreq := falRequest_noRetry_first tF 429 eb h429 rfl
    refine ⟨falErrorEnvelope (falHandleError (ReqError.httpError 429 eb)),
      by simp [falGenerateVideo, hval, hreq], ?_, ?_, ?_⟩
    · simp [falErrorEnvelope]
    · simp [falErrorEnvelope, falHandleError]
    · simp [videoRouteStatus, falErrorEnvelope, falHandleError,
        videoGetStatusCodeForError]
  · intro t v st sim eb hval
    have hvc : (jsFalsy (JSVal.str v) || !isStr (JSVal.str v)) = false :=
      elValidateInput_voice_ok (JSVal.str t) (JSVal.str v) hval
    refine ⟨elSpeechHttpEnvelope 429 eb,
      by simp [elGenerateSpeech, elDefaultVoice, hval, hvc], ?_, ?_, ?_⟩
    · simp [elSpeechHttpEnvelope]
    · simp [elSpeechHttpEnvelope]
    · simp [audioRouteStatus, elSpeechHttpEnvelope, audioGetStatusCodeForError]

/-- Witness for C8 at concrete valid inputs and a transport answering 429. -/
theorem c8_rate_limited_maps_to_429_witness :
    (falValidateInput (JSVal.str "A sunset") (falDefaultDuration JSVal.undef)
        (falDefaultAspect JSVal.undef) = none ∧
      ∃ env, (falGenerateVideo (fun _ => TransportOutcome.httpError 429 none)
          (JSVal.str "A sunset") JSVal.undef JSVal.undef).1 = Outcome.envelope env ∧
        env.success = false ∧ env.errorType = some "RATE_LIMITED" ∧
        videoRouteStatus env = 429) ∧
    (elValidateInput (JSVal.str "Hello world") (JSVal.str "21m00Tcm4TlvDq8ikWAM") = none ∧
      ∃ env, (elGenerateSpeech false (TransportOutcome.httpError 429 none)
          (JSVal.str "Hello world") (JSVal.str "21m00Tcm4TlvDq8ikWAM")
          JSVal.undef JSVal.undef).1 = Outcome.envelope env ∧
        env.success = false ∧ env.errorType = some "RATE_LIMITED" ∧
        audioRouteStatus env = 429) := by
  constructor
  · exact ⟨by decide, c8_rate_limited_maps_to_429.1
      (fun _ => TransportOutcome.httpError 429 none) "A sunset" JSVal.undef JSVal.undef
      none (by decide) rfl⟩
  · exact ⟨by decide, c8_rate_limited_maps_to_429.2 "Hello world"
      "21m00Tcm4TlvDq8ikWAM" JSVal.undef JSVal.undef none (by decide)⟩

/-- C9: for every binary audio provider response, the success envelope's
`audioBase64` field is the base64 encoding of the response bytes, the
reported `audioSize` equals the original byte length, and base64-decoding
the field reproduces the original bytes exactly. -/
theorem c9_audio_base64_lossless (bytes : List Nat) (hbytes : ∀ b ∈ bytes, b < 256)
    (t v : String) (st sim : JSVal)
    (hval : elValidateInput (JSVal.str t) (JSVal.str v) = none) :
    b64Decode (b64Encode bytes) = some bytes ∧
      ∃ env, (elGenerateSpeech false (TransportOutcome.success bytes)
          (JSVal.str t) (JSVal.str v) st sim).1 = Outcome.envelope env ∧
        env.success = true ∧ env.audioBase64 = b64Encode bytes ∧
        env.audioSize = bytes.length ∧ b64Decode env.audioBase64 = some bytes := by
  have hrt := b64_roundtrip bytes hbytes
  have hvc : (jsFalsy (JSVal.str v) || !isStr (JSVal.str v)) = false :=
    elValidateInput_voice_ok (JSVal.str t) (JSVal.str v) hval
  refine ⟨hrt, ?_⟩
  refine ⟨{ success := true, audioBase64 := b64Encode bytes,
            audioFormat := some "audio/mpeg", audioSize := bytes.length },
          ?_, rfl, rfl, rfl, hrt⟩
  simp [elGenerateSpeech, elDefaultVoice, hval, hvc]

/-- Witness for C9 at a concrete four-byte audio payload. -/
theorem c9_audio_base64_lossless_witness :
    (∀ b ∈ [0, 255, 128, 7], b < 256) ∧
      elValidateInput (JSVal.str "Hello world") (JSVal.str "21m00Tcm4TlvDq8ikWAM") = none ∧
      (b64Decode (b64Encode [0, 255, 128, 7]) = some [0, 255, 128, 7] ∧
        ∃ env, (elGenerateSpeech false (TransportOutcome.success [0, 255, 128, 7])
            (JSVal.str "Hello world") (JSVal.str "21m00Tcm4TlvDq8ikWAM")
            JSVal.undef JSVal.undef).1 = Outcome.envelope env ∧
          env.success = true ∧ env.audioBase64 = b64Encode [0, 255, 128, 7] ∧
          env.audioSize = [0, 255, 128, 7].length ∧
          b64Decode env.audioBase64 = some [0, 255, 128, 7]) :=
  ⟨by decide, by decide,
    c9_audio_base64_lossless [0, 255, 128, 7] (by decide) "Hello world"
      "21m00Tcm4TlvDq8ikWAM" JSVal.undef JSVal.undef (by decide)⟩

/-- C10 counterexample: with voiceId missing (undefined), the default voice
id is injected before any check, validation passes, and with a successful
transport the operation succeeds — it does not return an UNKNOWN_ERROR
result as the claim states for every missing voiceId. -/
theorem c10_missing_voice_id_can_succeed :
    elOutcomeSuccess (elGenerateSpeech false (TransportOutcome.success [])
        (JSVal.str "Hello world") JSVal.undef JSVal.undef JSVal.undef).1 = true ∧
      elOutcomeErrorType (elGenerateSpeech false (TransportOutcome.success [])
        (JSVal.str "Hello world") JSVal.undef JSVal.undef JSVal.undef).1 ≠
        some "UNKNOWN_ERROR" := by
  decide

/-- C10 (amended): the INVALID_VOICE_ID branch of `generateSpeech` is
unreachable — no input and no transport outcome ever yields that error
type — and for every supplied (not omitted) voiceId that is falsy or not a
string, with string text on an enabled service, input validation throws
first and the operation returns an UNKNOWN_ERROR result.  An omitted
voiceId is instead replaced by the default voice id before any check. -/
theorem c10_invalid_voice_id_unreachable :
    (∀ (disabled : Bool) (tE : TransportOutcome (List Nat))
        (text voiceId st sim : JSVal),
      elOutcomeErrorType (elGenerateSpeech disabled tE text voiceId st sim).1 ≠
        some "INVALID_VOICE_ID") ∧
    (∀ (tE : TransportOutcome (List Nat)) (t : String) (voiceId st sim : JSVal),
      voiceId ≠ JSVal.undef → (jsFalsy voiceId || !isStr voiceId) = true →
      elOutcomeErrorType (elGenerateSpeech false tE (JSVal.str t) voiceId st sim).1 =
        some "UNKNOWN_ERROR") := by
  constructor
  · intro disabled tE text voiceId st sim
    cases text with
    | str t =>
      cases disabled with
      | true => simp [elGenerateSpeech, elOutcomeErrorType]
      | false =>
        cases hv : elValidateInput (JSVal.str t) (elDefaultVoice voiceId) with
        | some msg => simp [elGenerateSpeech, hv, elOutcomeErrorType]
        | none =>
          have hvc := elValidateInput_voice_ok (JSVal.str t) (elDefaultVoice voiceId) hv
          cases tE with
          | success bytes => simp [elGenerateSpeech, hv, hvc, elOutcomeErrorType]
          | httpError s eb =>
            simp only [elGenerateSpeech, hv, hvc, elOutcomeErrorType]
            simp only [elSpeechHttpEnvelope]
            split_ifs <;> simp
          | netError c m =>
            simp only [elGenerateSpeech, hv, hvc, elOutcomeErrorType]
            simp only [elSpeechNetEnvelope]
            split_ifs <;> simp
          | thrown m => simp [elGenerateSpeech, hv, hvc, elOutcomeErrorType]
    | undef => simp [elGenerateSpeech, elOutcomeErrorType]
    | nullv => simp [elGenerateSpeech, elOutcomeErrorType]
    | num q => simp [elGenerateSpeech, elOutcomeErrorType]
    | bool b => simp [elGenerateSpeech, elOutcomeErrorType]
  · intro tE t voiceId st sim hundef hbad
    have hdef : elDefaultVoice voiceId = voiceId := by
      cases voiceId with
      | undef => exact absurd rfl hundef
      | nullv => rfl
      | str s => rfl
      | num q => rfl
      | bool b => rfl
    cases hv : elValidateInput (JSVal.str t) (elDefaultVoice voiceId) with
    | some msg => simp [elGenerateSpeech, hv, elOutcomeErrorType]
    | none =>
      have hvc := elValidateInput_voice_ok (JSVal.str t) (elDefaultVoice voiceId) hv
      rw [hdef] at hvc
      rw [hvc] at hbad
      exact absurd hbad (by simp)

/-- Witness for C10 (amended) at a null voiceId. -/
theorem c10_invalid_voice_id_unreachable_witness :
    elOutcomeErrorType (elGenerateSpeech false (TransportOutcome.success [])
        (JSVal.str "Hello world") JSVal.nullv JSVal.undef JSVal.undef).1 =
      some "UNKNOWN_ERROR" :=
  c10_invalid_voice_id_unreachable.2 (TransportOutcome.success []) "Hello world"
    JSVal.nullv JSVal.undef JSVal.undef (by decide) (by decide)
